import Mathlib

/-!
Verification development for the `app_utilities` repository.

The repository has two components with nontrivial decision logic:

* `src/app_utilities/numbers.py` — numeric type selectors
  `get_optimal_intype` and `get_optimal_uintype`;
* `src/app_utilities/loading.py` — the configuration loading pipeline
  `load_config_from_path` and its helper `check_keys_not_missing`.

Numeric inputs (`CompatibleNumber = int | float | np.integer | np.floating
| Decimal`) are all exact rational values at the moment the comparisons run
(Python compares `int`, `float` and `Decimal` exactly, with no rounding),
so the numeric domain is embedded as `ℚ`.  Python float *literals*
occurring in the code or in documented examples are embedded as the exact
rational value of the IEEE-754 double they denote.
-/

namespace AppUtilities

/-- The numpy scalar types that the selectors in `numbers.py` can return. -/
inductive NumType where
  | int8 | int16 | int32 | int64
  | uint8 | uint16 | uint32 | uint64
  | float32 | float64
deriving DecidableEq, Repr

/-- Exact rational value of the IEEE-754 double denoted by the Python
literal `3.4028235e+38` appearing in `numbers.py`
(equal to `int(3.4028235e38)` since the double is an integer). -/
def float32UpperLiteral : ℚ := 340282349999999991754788743781432688640

/-- Exact rational value of the IEEE-754 double denoted by the Python
literal `1e40` used in the documented examples (`int(1e40)`). -/
def pyFloat1e40 : ℚ := 10000000000000000303786028427003666890752

/-- Embedding of `get_optimal_intype` (`numbers.py`, lines 39-50):
a cascade of inclusive upper-bound comparisons, no lower-bound check. -/
def get_optimal_intype (number : ℚ) : NumType :=
  if number ≤ 127 then .int8
  else if number ≤ 32767 then .int16
  else if number ≤ 2147483647 then .int32
  else if number ≤ 9223372036854775807 then .int64
  else if number ≤ float32UpperLiteral then .float32
  else .float64

/-- Embedding of `get_optimal_uintype` (`numbers.py`, lines 91-102):
a cascade of strict upper-bound comparisons for the unsigned categories,
then an inclusive comparison for float32, no sign check. -/
def get_optimal_uintype (number : ℚ) : NumType :=
  if number < 255 then .uint8
  else if number < 65535 then .uint16
  else if number < 4294967295 then .uint32
  else if number < 18446744073709551615 then .uint64
  else if number ≤ float32UpperLiteral then .float32
  else .float64

/-- Inclusive integer range (min, max) of each fixed-width integer
category; `none` for the floating-point categories.  Used only to state
what "can hold the value without loss" means for integer categories. -/
def intTypeRange : NumType → Option (Int × Int)
  | .int8 => some (-128, 127)
  | .int16 => some (-32768, 32767)
  | .int32 => some (-2147483648, 2147483647)
  | .int64 => some (-9223372036854775808, 9223372036854775807)
  | .uint8 => some (0, 255)
  | .uint16 => some (0, 65535)
  | .uint32 => some (0, 4294967295)
  | .uint64 => some (0, 18446744073709551615)
  | .float32 => none
  | .float64 => none

/-- A fixed-width integer category holds a rational value without loss
iff the value is an integer inside the category's inclusive range. -/
def holdsWithoutLoss (t : NumType) (v : ℚ) : Prop :=
  ∃ lo hi, intTypeRange t = some (lo, hi) ∧ v.den = 1 ∧ lo ≤ v.num ∧ v.num ≤ hi

instance (t : NumType) (v : ℚ) : Decidable (holdsWithoutLoss t v) := by
  unfold holdsWithoutLoss
  cases h : intTypeRange t with
  | none => exact .isFalse (by simp [h])
  | some p =>
    exact decidable_of_iff (v.den = 1 ∧ p.1 ≤ v.num ∧ v.num ≤ p.2)
      (by
        cases p
        constructor
        · rintro ⟨h1, h2, h3⟩; exact ⟨_, _, rfl, h1, h2, h3⟩
        · rintro ⟨lo, hi, hlh, h1, h2, h3⟩
          injection hlh with hlh
          injection hlh with e1 e2
          subst e1; subst e2
          exact ⟨h1, h2, h3⟩)

/-! ### Configuration loading (`loading.py`)

The JSON decode step (`msgspec.json.decode`) and the filesystem are the
environment of `load_config_from_path`, not its logic: the function is
embedded over the result of that environment — whether the path names an
existing regular file (`is_file()`), and the decoded top-level object
(`none` when the bytes fail to decode to a JSON object).  Configuration
records carry arbitrary structured values, which the loader never
inspects, so records are association lists over an arbitrary value type. -/

/-- A configuration record: a JSON object as an association list from
field name to value (iteration order = document order, as preserved by
the decoder). -/
abbrev Record (α : Type) := List (String × α)

/-- The keys of a record, in iteration order (`mapping.keys()`). -/
def listKeys {α : Type} (m : Record α) : List String :=
  m.map Prod.fst

/-- Errors raised by the loading pipeline, tagged by Python exception
class, carrying the exception message. -/
inductive LoadError where
  | fileNotFound (msg : String)
  | typeError (msg : String)
  | keyError (msg : String)
  | decodeError (msg : String)
deriving DecidableEq, Repr

/-- Python `str.replace` with a nonempty pattern: replace every
non-overlapping occurrence, scanning left to right.  Structural
recursion on a fuel bound (the scan length) so that proof terms can
evaluate it; with fuel at least the length of the text and a nonempty
pattern the fuel never runs out. -/
def replaceAux (pat rep : List Char) : Nat → List Char → List Char
  | _, [] => []
  | 0, cs => cs
  | fuel + 1, c :: rest =>
    if pat.isPrefixOf (c :: rest) then
      rep ++ replaceAux pat rep fuel ((c :: rest).drop pat.length)
    else c :: replaceAux pat rep fuel rest

/-- Python `str.replace` at the string level. -/
def replaceStr (s pat rep : String) : String :=
  String.mk (replaceAux pat.data rep.data s.data.length s.data)

/-- Split a character list at every slash (the path separator), keeping
empty components. -/
def splitSlash : List Char → List (List Char)
  | [] => [[]]
  | c :: rest =>
    let r := splitSlash rest
    if c == '/' then [] :: r
    else
      match r with
      | [] => [[c]]
      | h :: t => (c :: h) :: t

/-- Value of a hexadecimal digit character, `none` for any other
character. -/
def hexDigitVal (c : Char) : Option Nat :=
  if '0' ≤ c ∧ c ≤ '9' then some (c.toNat - '0'.toNat)
  else if 'a' ≤ c ∧ c ≤ 'f' then some (c.toNat - 'a'.toNat + 10)
  else if 'A' ≤ c ∧ c ≤ 'F' then some (c.toNat - 'A'.toNat + 10)
  else none

/-- Parse a run of hexadecimal digits as a natural number (base 16),
failing on any non-hex-digit.  Models `int(s, 16)` on the 32-character
strings reaching it here (Python's extra tolerance in `int` for
surrounding whitespace, a sign, a `0x` prefix and digit-grouping
underscores is not modelled; no such key occurs in the claims). -/
def parseHexNat (cs : List Char) : Option Nat :=
  cs.foldl (fun acc c => acc.bind fun a => (hexDigitVal c).map fun d => a * 16 + d)
    (some 0)

/-- Python `str.strip` over the two curly-brace characters (code points
123 and 125): remove them from both ends. -/
def stripBraces (s : String) : String :=
  let isBrace := fun c => c == Char.ofNat 123 || c == Char.ofNat 125
  String.mk ((((s.data.dropWhile isBrace).reverse).dropWhile isBrace).reverse)

/-- Embedding of `uuid.UUID(key)` from the standard library (CPython
`Lib/uuid.py`, the `hex` branch): drop every occurrence of `urn:` and
`uuid:`, strip surrounding braces, drop hyphens, require exactly 32
characters, read them as hexadecimal.  Returns the 128-bit value as a
`Nat` (UUID equality in Python is equality of this integer), `none`
when a `ValueError` would be raised. -/
def parseUUID (s : String) : Option Nat :=
  let h := replaceStr (replaceStr s "urn:" "") "uuid:" ""
  let h := replaceStr (stripBraces h) "-" ""
  if h.length = 32 then parseHexNat h.data else none

/-- Formatting with %032x: lowercase hexadecimal digits of a 128-bit
value, zero-padded on the left to 32 characters. -/
def natToHexPad32 (n : Nat) : List Char :=
  let ds := Nat.toDigits 16 n
  List.replicate (32 - ds.length) '0' ++ ds

/-- `str(uuid.UUID)`: the 32 hex digits grouped 8-4-4-4-12 with
hyphens. -/
def uuidToString (u : Nat) : String :=
  let h := natToHexPad32 u
  String.mk (h.take 8) ++ "-" ++ String.mk ((h.drop 8).take 4) ++ "-" ++
    String.mk ((h.drop 12).take 4) ++ "-" ++ String.mk ((h.drop 16).take 4) ++
    "-" ++ String.mk (h.drop 20)

/-- The final path component (`pathlib.PurePath.name`): last component
after splitting on the separator, ignoring empty components and `.`
components. -/
def pathName (p : String) : String :=
  (((splitSlash p.data).map String.mk).filter (fun c => c ≠ "" && c ≠ ".")).getLastD ""

/-- Index of the last `.` in a list of characters, if any
(`str.rfind`). -/
def lastDotIdx (cs : List Char) : Option Nat :=
  ((List.range cs.length).filter (fun i => cs.getD i ' ' == '.')).getLast?

/-- `pathlib.PurePath.suffix`: with `i` the index of the last dot in the
final component, the substring from `i` when `0 < i < len(name) - 1`,
else the empty string. -/
def pathSuffix (p : String) : String :=
  let name := (pathName p).data
  match lastDotIdx name with
  | some i => if 0 < i ∧ i < name.length - 1 then String.mk (name.drop i) else ""
  | none => ""

/-- The deduplicated set difference `required_keys - mapping.keys()`
formed by `check_keys_not_missing` (`{*required_keys}` builds a set, so
duplicates collapse). -/
def missing_keys {α : Type} (required : List String) (m : Record α) : List String :=
  required.dedup.filter (fun k => !(listKeys m).contains k)

/-- The message suffix: `f' in {mapping_name}.' if mapping_name else '.'`
(both `None` and the empty string are falsy). -/
def mappingNameSuffix : Option String → String
  | some s => if s = "" then "." else " in " ++ s ++ "."
  | none => "."

/-- Embedding of `check_keys_not_missing` (`loading.py`, lines 51-77):
return `()` when no required key is missing from the mapping, otherwise
raise `KeyError` listing the comma-joined missing keys. -/
def check_keys_not_missing {α : Type} (required_keys : List String) (mapping : Record α)
    (mapping_name : Option String) : Except LoadError Unit :=
  let missing := missing_keys required_keys mapping
  if missing.isEmpty then .ok ()
  else .error (.keyError
    ("missing keys " ++ String.intercalate ", " missing ++ mappingNameSuffix mapping_name))

/-- The `for config_uuid_, config in configs.items():` loop of
`load_config_from_path`: try to parse each top-level key as a UUID,
`continue` on parse failure, `break` with the current record on the
first key equal to `config_uuid`; `none` when the loop falls through to
its `else` clause. -/
def findConfig {α : Type} (configs : List (String × Record α)) (config_uuid : Nat) :
    Option (Record α) :=
  match configs with
  | [] => none
  | (k, config) :: rest =>
    match parseUUID k with
    | none => findConfig rest config_uuid
    | some u => if config_uuid = u then some config else findConfig rest config_uuid

/-- Embedding of `load_config_from_path` (`loading.py`, lines 107-163).
`is_file` is the result of `config_path.is_file()`; `decoded` is the
result of reading and JSON-decoding the file (`some configs` when the
bytes decode to a top-level object, `none` otherwise — that branch only
matters for existence checks, never for the claims).  The checks run in
source order: existence, then suffix, then decode, then UUID scan, then
required-key check. -/
def load_config_from_path {α : Type} (is_file : Bool)
    (decoded : Option (List (String × Record α))) (config_path : String)
    (required_keys : List String) (config_uuid : Nat) :
    Except LoadError (Record α) :=
  if !is_file then
    .error (.fileNotFound (config_path ++ " not found."))
  else if pathSuffix config_path ≠ ".json" then
    .error (.typeError (config_path ++ " must be a .json file."))
  else
    match decoded with
    | none => .error (.decodeError "JSON decoding failed")
    | some configs =>
      match findConfig configs config_uuid with
      | none => .error (.keyError
          ("config_uuid " ++ uuidToString config_uuid ++ " not found as key in app_config."))
      | some config =>
        match check_keys_not_missing required_keys config (some "config") with
        | .error e => .error e
        | .ok _ => .ok config

/-! ### Theorems about the numeric type selectors -/

/-- C3: `get_optimal_uintype` returns the category of the first
strict-less-than threshold satisfied in ascending order (uint8 below 255,
uint16 below 65535, uint32 below 4294967295, uint64 below
18446744073709551615, float32 up to the 3.4028235e38 literal, else
float64); in particular 254 maps to uint8, 255 to uint16 and the double
1e40 to float64. -/
theorem get_optimal_uintype_thresholds :
    (∀ v : ℚ, get_optimal_uintype v =
      (if v < 255 then NumType.uint8
       else if v < 65535 then NumType.uint16
       else if v < 4294967295 then NumType.uint32
       else if v < 18446744073709551615 then NumType.uint64
       else if v ≤ float32UpperLiteral then NumType.float32
       else NumType.float64)) ∧
    get_optimal_uintype 254 = NumType.uint8 ∧
    get_optimal_uintype 255 = NumType.uint16 ∧
    get_optimal_uintype pyFloat1e40 = NumType.float64 :=
  ⟨fun _ => rfl, by decide, by decide, by decide⟩

/-- C4: `get_optimal_intype` returns the category of the first inclusive
upper bound satisfied in ascending order (int8 up to 127, int16 up to
32767, int32 up to 2147483647, int64 up to 9223372036854775807, float32
up to the 3.4028235e38 literal, else float64); no lower-bound check is
performed, so every negative value resolves to int8; in particular 127
maps to int8, 128 to int16, 9223372036854775807 to int64 and the double
1e40 to float64. -/
theorem get_optimal_intype_thresholds :
    (∀ v : ℚ, get_optimal_intype v =
      (if v ≤ 127 then NumType.int8
       else if v ≤ 32767 then NumType.int16
       else if v ≤ 2147483647 then NumType.int32
       else if v ≤ 9223372036854775807 then NumType.int64
       else if v ≤ float32UpperLiteral then NumType.float32
       else NumType.float64)) ∧
    (∀ v : ℚ, v < 0 → get_optimal_intype v = NumType.int8) ∧
    get_optimal_intype 127 = NumType.int8 ∧
    get_optimal_intype 128 = NumType.int16 ∧
    get_optimal_intype 9223372036854775807 = NumType.int64 ∧
    get_optimal_intype pyFloat1e40 = NumType.float64 := by
  refine ⟨fun _ => rfl, fun v hv => ?_, by decide, by decide, by decide, by decide⟩
  unfold get_optimal_intype
  rw [if_pos (le_trans hv.le (by norm_num))]

/-- Witness for C4: the hypothesis of the negative-value clause is
satisfiable, e.g. at -5. -/
theorem get_optimal_intype_thresholds_witness :
    get_optimal_intype (-5) = NumType.int8 :=
  get_optimal_intype_thresholds.2.1 (-5) (by norm_num)

/-- C10: every strictly negative value satisfies the first comparison
(below 255) of `get_optimal_uintype` and so resolves to uint8; no
unsigned-range check excludes negative inputs. -/
theorem get_optimal_uintype_negative (v : ℚ) (hv : v < 0) :
    get_optimal_uintype v = NumType.uint8 := by
  unfold get_optimal_uintype
  rw [if_pos (lt_trans hv (by norm_num))]

/-- Witness for C10: instantiated at -1. -/
theorem get_optimal_uintype_negative_witness :
    get_optimal_uintype (-1) = NumType.uint8 :=
  get_optimal_uintype_negative (-1) (by norm_num)

/-- C8: both selectors are pure total functions of the value: every input
(negative inputs included) yields one of the six documented categories,
and no error is ever produced — in particular `get_optimal_uintype`
returns a value (uint8) at -1 rather than raising the documented
ValueError, and `get_optimal_intype` likewise returns at -1. -/
theorem optimal_type_selectors_total :
    (∀ v : ℚ, get_optimal_intype v ∈
      [NumType.int8, NumType.int16, NumType.int32, NumType.int64,
       NumType.float32, NumType.float64]) ∧
    (∀ v : ℚ, get_optimal_uintype v ∈
      [NumType.uint8, NumType.uint16, NumType.uint32, NumType.uint64,
       NumType.float32, NumType.float64]) ∧
    get_optimal_uintype (-1) = NumType.uint8 ∧
    get_optimal_intype (-1) = NumType.int8 := by
  refine ⟨fun v => ?_, fun v => ?_, by decide, by decide⟩
  · unfold get_optimal_intype
    split_ifs <;> simp
  · unfold get_optimal_uintype
    split_ifs <;> simp

/-- C2 (code bug): the selectors do not always return the smallest
category that holds the value without loss.  `get_optimal_intype` maps
the double -1e10 to int8, which cannot hold it (its own docstring example
says int64, which can); `get_optimal_uintype` maps 255 to uint16 even
though uint8 holds 255 without loss. -/
theorem optimal_type_not_smallest_lossless :
    get_optimal_intype (-10000000000) = NumType.int8 ∧
    ¬ holdsWithoutLoss NumType.int8 (-10000000000) ∧
    holdsWithoutLoss NumType.int64 (-10000000000) ∧
    get_optimal_uintype 255 = NumType.uint16 ∧
    holdsWithoutLoss NumType.uint8 255 := by
  refine ⟨by decide, by decide, by decide, by decide, by decide⟩

/-! ### Theorems about the loading pipeline -/

/-- The UUID scan returns the first entry whose key parses to the target
UUID: it equals the head of the sublist of matching entries. -/
theorem findConfig_eq_filter {α : Type} (configs : List (String × Record α))
    (config_uuid : Nat) :
    findConfig configs config_uuid =
      ((configs.filter (fun kc => parseUUID kc.1 == some config_uuid)).head?).map
        Prod.snd := by
  induction configs with
  | nil => rfl
  | cons kc rest ih =>
    obtain ⟨k, c⟩ := kc
    cases hp : parseUUID k with
    | none =>
      rw [List.filter_cons_of_neg (by simp [hp])]
      simpa [findConfig, hp] using ih
    | some u =>
      by_cases hu : config_uuid = u
      · subst hu
        rw [List.filter_cons_of_pos (by simp [hp])]
        simp [findConfig, hp]
      · rw [List.filter_cons_of_neg (by simp [hp]; exact fun h => hu h.symm)]
        simpa [findConfig, hp, hu] using ih

/-- No key of the mapping is missing iff every required key occurs among
the mapping keys. -/
theorem missing_keys_eq_nil_iff {α : Type} (required : List String) (m : Record α) :
    missing_keys required m = [] ↔ ∀ k ∈ required, k ∈ listKeys m := by
  simp [missing_keys, List.filter_eq_nil_iff, List.mem_dedup]

/-- Membership in the computed missing-key list is exactly membership in
the set difference of required keys and mapping keys. -/
theorem mem_missing_keys_iff {α : Type} (required : List String) (m : Record α)
    (k : String) :
    k ∈ missing_keys required m ↔ k ∈ required ∧ k ∉ listKeys m := by
  simp [missing_keys, List.mem_filter, List.mem_dedup]

/-- C6: `check_keys_not_missing` returns nothing exactly when every
required name is a key of the mapping; otherwise it fails with a KeyError
whose message comma-joins the missing names, optionally suffixed with the
mapping name — and the missing names are exactly the set difference of
the required keys and the mapping keys (order-independent membership
characterisation). -/
theorem check_keys_not_missing_spec {α : Type} (required_keys : List String)
    (mapping : Record α) (mapping_name : Option String) :
    (check_keys_not_missing required_keys mapping mapping_name = .ok () ↔
      ∀ k ∈ required_keys, k ∈ listKeys mapping) ∧
    (missing_keys required_keys mapping ≠ [] →
      check_keys_not_missing required_keys mapping mapping_name =
        .error (.keyError ("missing keys " ++
          String.intercalate ", " (missing_keys required_keys mapping) ++
          mappingNameSuffix mapping_name))) ∧
    (∀ k, k ∈ missing_keys required_keys mapping ↔
      k ∈ required_keys ∧ k ∉ listKeys mapping) := by
  refine ⟨?_, ?_, fun k => mem_missing_keys_iff required_keys mapping k⟩
  · unfold check_keys_not_missing
    by_cases h : (missing_keys required_keys mapping).isEmpty
    · rw [if_pos h]
      simp only [List.isEmpty_iff] at h
      simp [missing_keys_eq_nil_iff required_keys mapping] at h
      simpa using h
    · rw [if_neg h]
      simp only [List.isEmpty_iff] at h
      simp [missing_keys_eq_nil_iff required_keys mapping] at h
      simpa using h
  · intro h
    unfold check_keys_not_missing
    rw [if_neg (by simpa [List.isEmpty_iff] using h)]

/-- Witness for C6: at required keys a, c against a mapping having only
key a, the check fails listing exactly c. -/
theorem check_keys_not_missing_spec_witness :
    check_keys_not_missing ["a", "c"] [("a", 1)] (some "config") =
      .error (.keyError "missing keys c in config.") :=
  (check_keys_not_missing_spec ["a", "c"] [("a", 1)] (some "config")).2.1 (by decide)

/-- When no required key is missing, `check_keys_not_missing` returns
`()`. -/
theorem check_keys_not_missing_ok {α : Type} (required_keys : List String)
    (mapping : Record α) (mapping_name : Option String)
    (h : missing_keys required_keys mapping = []) :
    check_keys_not_missing required_keys mapping mapping_name = .ok () := by
  unfold check_keys_not_missing
  rw [if_pos (by simp [h])]

/-- C1: on an existing .json file whose decoded top-level mapping has
exactly one entry whose key parses as a UUID equal to `config_uuid`, and
whose record contains every name in `required_keys`,
`load_config_from_path` returns exactly that record — the record itself,
unmodified, so extra fields are preserved (the value type is abstract, so
the loader cannot alter any field). -/
theorem load_config_returns_matching_record {α : Type}
    (configs : List (String × Record α)) (config_path : String)
    (required_keys : List String) (config_uuid : Nat) (key : String)
    (config : Record α)
    (hsuffix : pathSuffix config_path = ".json")
    (hmatch : configs.filter (fun kc => parseUUID kc.1 == some config_uuid)
      = [(key, config)])
    (hreq : ∀ k ∈ required_keys, k ∈ listKeys config) :
    load_config_from_path true (some configs) config_path required_keys config_uuid
      = .ok config := by
  have hfind : findConfig configs config_uuid = some config := by
    rw [findConfig_eq_filter, hmatch]; rfl
  have hcheck : check_keys_not_missing required_keys config (some "config") = .ok () :=
    check_keys_not_missing_ok required_keys config (some "config")
      ((missing_keys_eq_nil_iff required_keys config).mpr hreq)
  unfold load_config_from_path
  rw [if_neg (by simp), if_neg (by simp [hsuffix])]
  simp [hfind, hcheck]

/-- Witness for C1: the scenario from the spec — a document with the
single entry keyed `3fa85f64-5717-4562-b3fc-2c963f66afa6` holding fields
a and b, loaded with required keys a, b and that UUID, returns the
record. -/
theorem load_config_returns_matching_record_witness :
    load_config_from_path true
      (some [("3fa85f64-5717-4562-b3fc-2c963f66afa6", [("a", 1), ("b", 2)])])
      "config.json" ["a", "b"] 84615604385365478182002687254108483494
      = .ok [("a", 1), ("b", 2)] :=
  load_config_returns_matching_record
    [("3fa85f64-5717-4562-b3fc-2c963f66afa6", [("a", 1), ("b", 2)])]
    "config.json" ["a", "b"] 84615604385365478182002687254108483494
    "3fa85f64-5717-4562-b3fc-2c963f66afa6" [("a", 1), ("b", 2)]
    (by decide) (by decide) (by decide)

/-- C5: on an existing .json file none of whose decoded top-level keys
parses as a UUID equal to `config_uuid`, `load_config_from_path` raises
KeyError; moreover keys that fail to parse as UUIDs are silently skipped:
prepending an unparseable entry never changes the result. -/
theorem load_config_key_not_found {α : Type}
    (configs : List (String × Record α)) (config_path : String)
    (required_keys : List String) (config_uuid : Nat)
    (hsuffix : pathSuffix config_path = ".json")
    (hnone : configs.filter (fun kc => parseUUID kc.1 == some config_uuid) = []) :
    load_config_from_path true (some configs) config_path required_keys config_uuid
      = .error (.keyError ("config_uuid " ++ uuidToString config_uuid ++
          " not found as key in app_config.")) ∧
    ∀ (k : String) (r : Record α), parseUUID k = none →
      load_config_from_path true (some ((k, r) :: configs)) config_path
          required_keys config_uuid
        = load_config_from_path true (some configs) config_path required_keys
            config_uuid := by
  constructor
  · have hfind : findConfig configs config_uuid = none := by
      rw [findConfig_eq_filter, hnone]; rfl
    unfold load_config_from_path
    rw [if_neg (by simp), if_neg (by simp [hsuffix])]
    simp [hfind]
  · intro k r hk
    have hskip : findConfig ((k, r) :: configs) config_uuid
        = findConfig configs config_uuid := by
      simp [findConfig, hk]
    unfold load_config_from_path
    rw [if_neg (by simp), if_neg (by simp [hsuffix])]
    simp only [hskip]
    rw [if_neg (by simp), if_neg (by simp [hsuffix])]

/-- Witness for C5: a document whose only key does not parse as a UUID
yields KeyError for the nil UUID, and prepending another unparseable key
changes nothing. -/
theorem load_config_key_not_found_witness :
    load_config_from_path true (some [("notauuid", ([("x", 1)] : Record Nat))])
        "config.json" [] 0
      = .error (.keyError
          "config_uuid 00000000-0000-0000-0000-000000000000 not found as key in app_config.") :=
  (load_config_key_not_found [("notauuid", [("x", 1)])] "config.json" [] 0
    (by decide) (by decide)).1

/-- C7 (counterexample to the claim as stated): a path whose suffix is
not .json but which names no existing file fails with FileNotFoundError,
not TypeError — the existence check runs first. -/
theorem load_config_nonjson_counterexample :
    pathSuffix "config.txt" ≠ ".json" ∧
    (load_config_from_path false none "config.txt" ([] : List String) 0 :
        Except LoadError (Record Nat))
      = .error (.fileNotFound "config.txt not found.") :=
  ⟨by decide, rfl⟩

/-- C7 (amended): for every path naming an existing file whose suffix is
not .json, `load_config_from_path` fails with TypeError, before
attempting to decode the contents — the result is the same whatever the
decode outcome (`decoded` is universally quantified, including the
undecodable case). -/
theorem load_config_nonjson_unsupported {α : Type}
    (decoded : Option (List (String × Record α))) (config_path : String)
    (required_keys : List String) (config_uuid : Nat)
    (hsuffix : pathSuffix config_path ≠ ".json") :
    load_config_from_path true decoded config_path required_keys config_uuid
      = .error (.typeError (config_path ++ " must be a .json file.")) := by
  unfold load_config_from_path
  rw [if_neg (by simp), if_pos hsuffix]

/-- Witness for C7 (amended): an existing .txt file with undecodable
contents fails with TypeError. -/
theorem load_config_nonjson_unsupported_witness :
    load_config_from_path true (none : Option (List (String × Record Nat)))
        "config.txt" [] 0
      = .error (.typeError "config.txt must be a .json file.") :=
  load_config_nonjson_unsupported none "config.txt" [] 0 (by decide)

/-- C9: loading is deterministic — two calls with identical arguments
against an unchanged file (same existence status and same decoded
contents) return equal results. -/
theorem load_config_deterministic {α : Type}
    (f₁ f₂ : Bool) (d₁ d₂ : Option (List (String × Record α)))
    (p₁ p₂ : String) (r₁ r₂ : List String) (u₁ u₂ : Nat)
    (hf : f₁ = f₂) (hd : d₁ = d₂) (hp : p₁ = p₂) (hr : r₁ = r₂) (hu : u₁ = u₂) :
    load_config_from_path f₁ d₁ p₁ r₁ u₁ = load_config_from_path f₂ d₂ p₂ r₂ u₂ := by
  subst hf; subst hd; subst hp; subst hr; subst hu; rfl

/-- Witness for C9: the two runs of a concrete call coincide. -/
theorem load_config_deterministic_witness :
    load_config_from_path true (some [("k", ([("a", 1)] : Record Nat))])
        "config.json" ["a"] 0
      = load_config_from_path true (some [("k", ([("a", 1)] : Record Nat))])
          "config.json" ["a"] 0 :=
  load_config_deterministic true true _ _ "config.json" "config.json"
    ["a"] ["a"] 0 0 rfl rfl rfl rfl rfl

end AppUtilities
